import Mathlib

/-!
Verification development for the Conversational-Analyst repository.

The module `tools_core.py` is embedded below as pure Lean functions over an
explicit `State` (the Python global `STATE` dict with slots `df`, `name`,
`schema`).  External library calls (pandas `read_csv`/`describe`/`corr`,
`to_period`, numpy `sqrt`, plotly figure construction and `fig.show`) are
modelled as an environment `Env` of capability functions that may fail with a
Python exception; the spec explicitly treats the tabular-statistics
implementations and all plotting as external collaborators.  Each operation
returns `Except PyError JValue × State`: `Except.error` means an uncaught
Python exception propagated to the caller, `Except.ok v` means the operation
returned the JSON-like value `v`; the second component is the final global
state.
-/

namespace Analyst

/-- A Python exception: its class name (`type(e).__name__`) and message (`str(e)`). -/
structure PyError where
  className : String
  msg : String
  deriving DecidableEq, Repr

/-- A JSON-like value, the shape of every dict returned by `tools_core.py`. -/
inductive JValue where
  | null : JValue
  | bool : Bool → JValue
  | num : ℚ → JValue
  | str : String → JValue
  | arr : List JValue → JValue
  | obj : List (String × JValue) → JValue
  deriving Repr

/-- One cell of a pandas column: missing (`NaN`/`NaT`), a number, a string,
or a datetime value (modelled as an integer timestamp). -/
inductive Cell where
  | na : Cell
  | num : ℚ → Cell
  | str : String → Cell
  | date : Int → Cell
  deriving DecidableEq, Repr

/-- A pandas column dtype, as far as `tools_core.py` distinguishes them. -/
inductive Dtype where
  | int64 : Dtype
  | float64 : Dtype
  | object : Dtype
  | datetime64 : Dtype
  deriving DecidableEq, Repr

/-- `is_numeric`: dtypes selected by `select_dtypes(include=np.number)`. -/
def Dtype.isNumeric : Dtype → Bool
  | .int64 => true
  | .float64 => true
  | _ => false

/-- A named pandas column with its dtype and cells. -/
structure Column where
  name : String
  dtype : Dtype
  values : List Cell
  deriving DecidableEq, Repr

/-- A pandas DataFrame: its row count (the RangeIndex length) and columns. -/
structure DataFrame where
  nrows : Nat
  cols : List Column
  deriving DecidableEq, Repr

/-- The LLM-provided schema: a dict mapping bucket name to column names. -/
def Schema := List (String × List String)

/-- The global `STATE` dict of `tools_core.py`: slots `df`, `name`, `schema`. -/
structure State where
  df : Option DataFrame
  name : Option String
  schema : Option Schema

/-- The external capabilities used by `tools_core.py`, which the spec treats
as collaborators outside the core: the filesystem and `pd.read_csv`, the
pandas statistics (`describe`, `corr`), the plotly figure construction plus
`fig.show` calls (one capability per chart kind, covering the whole
render attempt), `Series.dt.to_period`, and the square root used inside
`Series.std`.  Each fallible capability returns `Except PyError`. -/
structure Env where
  defaultExists : Bool
  readCsv : String → Except PyError DataFrame
  describe : DataFrame → Bool → Except PyError JValue
  corr : DataFrame → Bool → String → Except PyError JValue
  renderBar : List String → List ℚ → String → Except PyError Unit
  renderScatter : DataFrame → String → String → Except PyError Unit
  renderHist : DataFrame → String → Int → Except PyError Unit
  renderLine : List Int → List ℚ → String → Except PyError Unit
  toPeriod : String → Int → Except PyError Int
  sqrtQ : ℚ → ℚ

/-- The column names of a DataFrame (`df.columns`). -/
def DataFrame.colNames (df : DataFrame) : List String :=
  df.cols.map (·.name)

/-- Column lookup by name, `none` when absent. -/
def getColumn (df : DataFrame) (c : String) : Option Column :=
  df.cols.find? (·.name = c)

/-- `df[c]` for a single column: raises `KeyError` when the column is absent. -/
def getCol (df : DataFrame) (c : String) : Except PyError Column :=
  match getColumn df c with
  | some col => .ok col
  | none => .error ⟨"KeyError", c⟩

/-- `df[columns]` for a list of columns: pandas raises a single `KeyError`
naming the missing columns when any is absent. -/
def selectCols (df : DataFrame) (cs : List String) : Except PyError DataFrame :=
  let missing := cs.filter (fun c => (getColumn df c).isNone)
  if missing = [] then .ok ⟨df.nrows, cs.filterMap (getColumn df)⟩
  else .error ⟨"KeyError", String.intercalate ", " missing ++ " not in index"⟩

/-- `df.select_dtypes(include=np.number)`. -/
def selectNumeric (df : DataFrame) : DataFrame :=
  ⟨df.nrows, df.cols.filter (fun col => col.dtype.isNumeric)⟩

/-- `Path(path).name`: the final path component. -/
def basename (p : String) : String :=
  (p.splitOn "/").getLastD p

/-- A cell as a JSON value (`NaN` becomes null in this model). -/
def cellToJ : Cell → JValue
  | .na => .null
  | .num q => .num q
  | .str s => .str s
  | .date t => .num t

/-- `astype(str)` on one cell; pandas renders `NaN` as the string `nan`. -/
def cellToStr : Cell → String
  | .na => "nan"
  | .num q => toString q
  | .str s => s
  | .date t => toString t

/-- The uniform failure dict `{"ok": False, "error": s}`. -/
def errObj (s : String) : JValue :=
  .obj [("ok", .bool false), ("error", .str s)]

/-- Key lookup in an object value. -/
def JValue.getKey : JValue → String → Option JValue
  | .obj kvs, k => kvs.lookup k
  | _, _ => none

/-- Python dict insertion: replace the value at an existing key in place,
otherwise append a new entry (keys stay unique, insertion order is kept). -/
def dictInsert : List (String × JValue) → String → JValue →
    List (String × JValue)
  | [], k, v => [(k, v)]
  | p :: kvs, k, v =>
      if p.1 = k then (k, v) :: kvs else p :: dictInsert kvs k v

/-- `l.head(n)` semantics on a list: a negative `n` drops the last `|n|`
elements, as in pandas. -/
def takeHead (n : Int) (l : List α) : List α :=
  if 0 ≤ n then l.take n.toNat else l.take (l.length - n.natAbs)

/-- The numeric entries of a column's cells. -/
def numsOf (vs : List Cell) : List ℚ :=
  vs.filterMap (fun c => match c with | .num q => some q | _ => none)

/-- Mean of a list of rationals, `none` (pandas `NaN`) when empty. -/
def meanQ (l : List ℚ) : Option ℚ :=
  if l.length = 0 then none else some (l.sum / l.length)

/-- Population variance (`ddof=0`), `none` when the list is empty. -/
def varQ (l : List ℚ) : Option ℚ :=
  match meanQ l with
  | none => none
  | some μ => some (((l.map (fun x => (x - μ) ^ 2)).sum) / l.length)

/-- `col.std(ddof=0)`: the square root (an `Env` capability) of the
population variance of the column's non-missing numeric values. -/
def colStd (env : Env) (col : Column) : Option ℚ :=
  (varQ (numsOf col.values)).map env.sqrtQ

/-- The z-score of one cell against its column, with the `+ 1e-9`
denominator floor of `outliers`; `none` for a missing or non-numeric cell
or when the column has no numeric values (pandas `NaN`). -/
def zscoreCell (env : Env) (col : Column) (cell : Cell) : Option ℚ :=
  match cell, meanQ (numsOf col.values), colStd env col with
  | .num q, some μ, some σ => some ((q - μ) / (σ + 1 / 1000000000))
  | _, _, _ => none

/-- Whether one cell's |z-score| exceeds the threshold (`NaN` compares false). -/
def zAbove (env : Env) (col : Column) (i : Nat) (z : ℚ) : Bool :=
  match zscoreCell env col (col.values.getD i .na) with
  | some w => decide (z < |w|)
  | none => false

/-- Row `i` is an outlier row when any selected column's |z| exceeds `z`
(`.any(axis=1)`). -/
def rowMask (env : Env) (sub : DataFrame) (z : ℚ) (i : Nat) : Bool :=
  sub.cols.any (fun col => zAbove env col i z)

/-- `value_counts()` on strings: distinct keys with their counts, sorted by
count descending (insertion sort; tie order is unspecified in pandas). -/
def countsDesc (l : List String) : List (String × Nat) :=
  List.insertionSort (fun p q => q.2 ≤ p.2)
    ((l.dedup).map (fun k => (k, l.count k)))

/-- `value_counts().sort_index()` on integer keys: distinct keys ascending,
each with its count. -/
def valueCountsSorted (l : List Int) : List (Int × Nat) :=
  (List.insertionSort (· ≤ ·) l.dedup).map (fun k => (k, l.count k))

/-- The non-missing datetime values of a column (`.dropna()` on a
datetime64 column). -/
def dateVals (col : Column) : List Int :=
  col.values.filterMap (fun c => match c with | .date t => some t | _ => none)

/-- `pd.to_numeric(·, errors="coerce")` on one cell: numbers pass through,
integer-literal strings parse, everything else becomes `NaN`.  (Fractional
numeric strings are not modelled; the year-trend use feeds integer years.) -/
def toNumericCell : Cell → Option ℚ
  | .num q => some q
  | .str s => (s.toInt?).map (fun i => (i : ℚ))
  | _ => none

/-- `astype(int)` on a float: truncation toward zero. -/
def ratTruncToInt (q : ℚ) : Int :=
  if 0 ≤ q then ⌊q⌋ else ⌈q⌉

/-- `pd.to_numeric(s, errors="coerce").dropna().astype(int)` on a column. -/
def intVals (col : Column) : List Int :=
  (col.values.filterMap toNumericCell).map ratTruncToInt

/-- Sequential traversal with exception propagation: the first failing
element's error is raised, as in a Python loop over the series. -/
def mapExcept (f : Int → Except PyError Int) :
    List Int → Except PyError (List Int)
  | [] => .ok []
  | x :: xs =>
      match f x with
      | .error e => .error e
      | .ok y =>
          match mapExcept f xs with
          | .error e => .error e
          | .ok ys => .ok (y :: ys)

/-- The `{ok, type, trend}` result shape shared by both `time_trend`
branches; `trend` keeps its keys in the order of the given counts list. -/
def mkTrend (ty : String) (l : List (Int × Nat)) : JValue :=
  .obj [("ok", .bool true), ("type", .str ty),
        ("trend", .obj (l.map (fun p => (toString p.1, JValue.num (p.2 : ℚ)))))]

/-- The schema slot as a JSON value. -/
def schemaToJ : Option Schema → JValue
  | none => .null
  | some s => .obj (s.map (fun p => (p.1, JValue.arr (p.2.map JValue.str))))

/-! ## The operations of `tools_core.py` -/

/-- The body of `load_data`'s `try` block: `pd.read_csv(path)` then the
atomic replacement of `STATE["df"]` and `STATE["name"]`; a parse failure is
caught and tagged `load_failed:<class>:<message>` with the state untouched. -/
def loadFrom (env : Env) (p : String) (st : State) :
    Except PyError JValue × State :=
  match env.readCsv p with
  | .ok df =>
      (.ok (.obj [("ok", .bool true), ("dataset", .str (basename p)),
                  ("rows", .num df.nrows), ("cols", .num df.cols.length),
                  ("columns", .arr (df.colNames.map JValue.str))]),
       { st with df := some df, name := some (basename p) })
  | .error e =>
      (.ok (errObj ("load_failed:" ++ e.className ++ ":" ++ e.msg)), st)

/-- `load_data(path=None)`: fall back to `dataset.csv` when no path is given,
failing with the fixed sentinel when that file does not exist. -/
def load_data (env : Env) (path : Option String) (st : State) :
    Except PyError JValue × State :=
  match path with
  | none =>
      if env.defaultExists then loadFrom env "dataset.csv" st
      else (.ok (errObj "no_path_provided_and_dataset.csv_not_found"), st)
  | some p => loadFrom env p st

/-- `set_schema(schema)`: store the schema, report its keys. -/
def set_schema (schema : Schema) (st : State) :
    Except PyError JValue × State :=
  (.ok (.obj [("ok", .bool true),
              ("keys", .arr ((schema.map (·.1)).map JValue.str))]),
   { st with schema := some schema })

/-- `get_schema()`: `{"ok": STATE["schema"] is not None, "schema": ...}`. -/
def get_schema (st : State) : Except PyError JValue × State :=
  (.ok (.obj [("ok", .bool st.schema.isSome), ("schema", schemaToJ st.schema)]),
   st)

/-- `summary(numeric_only)`: size plus `df.describe()` (a capability). -/
def summary (env : Env) (numeric_only : Bool) (st : State) :
    Except PyError JValue × State :=
  match st.df with
  | none => (.ok (errObj "no_dataset_loaded"), st)
  | some df =>
      match env.describe df numeric_only with
      | .ok desc =>
          (.ok (.obj [("ok", .bool true), ("rows", .num df.nrows),
                      ("cols", .num df.cols.length), ("describe", desc)]), st)
      | .error e =>
          (.ok (errObj ("summary_failed:" ++ e.className ++ ":" ++ e.msg)), st)

/-- One record of `df.head(n).to_dict(orient="records")`. -/
def headRecord (df : DataFrame) (i : Nat) : JValue :=
  .obj (df.cols.map (fun col => (col.name, cellToJ (col.values.getD i .na))))

/-- `head(n)`: the first `n` rows as records.  No failure boundary in the
source beyond the dataset gate. -/
def head (n : Int) (st : State) : Except PyError JValue × State :=
  match st.df with
  | none => (.ok (errObj "no_dataset_loaded"), st)
  | some df =>
      (.ok (.obj [("ok", .bool true),
                  ("rows", .arr ((takeHead n (List.range df.nrows)).map
                    (headRecord df)))]), st)

/-- `df[c].astype(str).value_counts(dropna=True).head(top_n)`. -/
def topCounts (col : Column) (top_n : Int) : List (String × Nat) :=
  takeHead top_n (countsDesc (col.values.map cellToStr))

/-- The per-column body of `top_categories`'s loop: compute the top-`n`
counts, then build and show a bar chart; any exception in the item's `try`
block (missing column, or a render failure after the counts were stored)
overwrites the entry with the inline string `error:<message>`. -/
def topCatEntry (env : Env) (df : DataFrame) (top_n : Int) (c : String) :
    JValue :=
  match getCol df c with
  | .error e => .str ("error:" ++ e.msg)
  | .ok col =>
      let counts := topCounts col top_n
      match env.renderBar (counts.map (·.1)) (counts.map (fun p => (p.2 : ℚ)))
          ("Top " ++ toString top_n ++ ": " ++ c) with
      | .ok _ => .obj (counts.map (fun p => (p.1, JValue.num (p.2 : ℚ))))
      | .error e => .str ("error:" ++ e.msg)

/-- `top_categories(columns, top_n)`: a dict of per-column results; item
failures are reported inline and never flip the overall `ok`. -/
def top_categories (env : Env) (columns : List String) (top_n : Int)
    (st : State) : Except PyError JValue × State :=
  match st.df with
  | none => (.ok (errObj "no_dataset_loaded"), st)
  | some df =>
      let out := columns.foldl
        (fun acc c => dictInsert acc c (topCatEntry env df top_n c)) []
      (.ok (.obj [("ok", .bool true), ("top_categories", .obj out)]), st)

/-- `correlations(columns, method)`: whole-frame numeric correlation when
`columns` is omitted, else correlation of the selected sub-frame; any
exception is caught and tagged `correlation_failed:<message>`. -/
def correlations (env : Env) (columns : Option (List String)) (method : String)
    (st : State) : Except PyError JValue × State :=
  match st.df with
  | none => (.ok (errObj "no_dataset_loaded"), st)
  | some df =>
      match columns with
      | none =>
          match env.corr df true method with
          | .ok c =>
              (.ok (.obj [("ok", .bool true), ("method", .str method),
                          ("corr", c)]), st)
          | .error e =>
              (.ok (errObj ("correlation_failed:" ++ e.msg)), st)
      | some cs =>
          match selectCols df cs with
          | .error e =>
              (.ok (errObj ("correlation_failed:" ++ e.msg)), st)
          | .ok sub =>
              match env.corr sub false method with
              | .ok c =>
                  (.ok (.obj [("ok", .bool true), ("method", .str method),
                              ("corr", c)]), st)
              | .error e =>
                  (.ok (errObj ("correlation_failed:" ++ e.msg)), st)

/-- The per-pair body of `scatter_pairs`'s loop: attempt the scatter chart;
a failure appends the inline string `<x>_vs_<y>_error:<message>` instead. -/
def scatterEntry (env : Env) (df : DataFrame) (p : String × String) : JValue :=
  match env.renderScatter df p.1 p.2 with
  | .ok _ => .str (p.1 ++ "_vs_" ++ p.2)
  | .error e => .str (p.1 ++ "_vs_" ++ p.2 ++ "_error:" ++ e.msg)

/-- `scatter_pairs(pairs)`: one render attempt per pair, failures inline. -/
def scatter_pairs (env : Env) (pairs : List (String × String)) (st : State) :
    Except PyError JValue × State :=
  match st.df with
  | none => (.ok (errObj "no_dataset_loaded"), st)
  | some df =>
      (.ok (.obj [("ok", .bool true),
                  ("pairs_rendered", .arr (pairs.map (scatterEntry env df)))]),
       st)

/-- `outliers(columns, z)`: z-scores of the selected numeric columns with
the `+ 1e-9` denominator floor; rows where any |z| exceeds the threshold.
A selection failure is caught and tagged `outlier_failed:<message>`. -/
def outliers (env : Env) (columns : List String) (z : ℚ) (st : State) :
    Except PyError JValue × State :=
  match st.df with
  | none => (.ok (errObj "no_dataset_loaded"), st)
  | some df =>
      match selectCols df columns with
      | .error e => (.ok (errObj ("outlier_failed:" ++ e.msg)), st)
      | .ok sel =>
          let sub := selectNumeric sel
          let idx := (List.range df.nrows).filter (rowMask env sub z)
          (.ok (.obj [("ok", .bool true), ("count", .num idx.length),
                      ("indices", .arr (idx.map (fun i => JValue.num i)))]),
           st)

/-- One column's missing-value fraction (`df.isna().mean()`), `NaN` when
the column is empty. -/
def missFrac (col : Column) : Option ℚ :=
  if col.values.length = 0 then none
  else some ((col.values.countP (fun c => c = Cell.na) : ℚ) / col.values.length)

/-- `missing(threshold)`: columns whose missing fraction exceeds the
threshold, sorted by fraction descending.  No failure boundary in the
source beyond the dataset gate. -/
def missing (threshold : ℚ) (st : State) : Except PyError JValue × State :=
  match st.df with
  | none => (.ok (errObj "no_dataset_loaded"), st)
  | some df =>
      let flagged := List.insertionSort (fun p q => q.2 ≤ p.2)
        (df.cols.filterMap (fun col =>
          match missFrac col with
          | some f => if threshold < f then some (col.name, f) else none
          | none => none))
      (.ok (.obj [("ok", .bool true), ("threshold", .num threshold),
                  ("missing", .obj (flagged.map
                    (fun p => (p.1, JValue.num p.2))))]), st)

/-- `plot_hist(column, nbins)`: the histogram render attempt is the whole
computation; a failure is caught and tagged `plot_hist_failed:<message>`. -/
def plot_hist (env : Env) (column : String) (nbins : Int) (st : State) :
    Except PyError JValue × State :=
  match st.df with
  | none => (.ok (errObj "no_dataset_loaded"), st)
  | some df =>
      match env.renderHist df column nbins with
      | .ok _ => (.ok (.obj [("ok", .bool true)]), st)
      | .error e => (.ok (errObj ("plot_hist_failed:" ++ e.msg)), st)

/-- `plot_xy(x, y)`: the scatter render attempt is the whole computation;
a failure is caught and tagged `plot_xy_failed:<message>`. -/
def plot_xy (env : Env) (x y : String) (st : State) :
    Except PyError JValue × State :=
  match st.df with
  | none => (.ok (errObj "no_dataset_loaded"), st)
  | some df =>
      match env.renderScatter df x y with
      | .ok _ => (.ok (.obj [("ok", .bool true)]), st)
      | .error e => (.ok (errObj ("plot_xy_failed:" ++ e.msg)), st)

/-- `time_trend(column, freq)`.  NOTE: `s = df[column]` happens before the
`try` block in the source, so a missing column raises `KeyError` to the
caller (`Except.error`).  Inside the `try`: the datetime branch groups by
`to_period(freq)` and the fallback branch by coerced integer value, both
sorted by key ascending; each branch builds and shows a line chart before
returning, so a caught exception anywhere (period conversion or rendering)
yields `time_trend_failed:<message>`. -/
def time_trend (env : Env) (column : String) (freq : String) (st : State) :
    Except PyError JValue × State :=
  match st.df with
  | none => (.ok (errObj "no_dataset_loaded"), st)
  | some df =>
      match getCol df column with
      | .error e => (.error e, st)
      | .ok s =>
          if s.dtype = .datetime64 then
            match mapExcept (env.toPeriod freq) (dateVals s) with
            | .error e => (.ok (errObj ("time_trend_failed:" ++ e.msg)), st)
            | .ok ps =>
                let result := valueCountsSorted ps
                match env.renderLine (result.map (·.1))
                    (result.map (fun p => (p.2 : ℚ)))
                    ("Count by " ++ freq ++ ": " ++ column) with
                | .ok _ => (.ok (mkTrend "datetime" result), st)
                | .error e =>
                    (.ok (errObj ("time_trend_failed:" ++ e.msg)), st)
          else
            let result := valueCountsSorted (intVals s)
            match env.renderLine (result.map (·.1))
                (result.map (fun p => (p.2 : ℚ)))
                ("Count by Year: " ++ column) with
            | .ok _ => (.ok (mkTrend "year-int" result), st)
            | .error e => (.ok (errObj ("time_trend_failed:" ++ e.msg)), st)

/-! ## The public tool surface of `server.py`

Each `@mcp.tool()` wrapper in `server.py` exposes one operation; a parameter
is required at that surface exactly when the Python `def` gives it no
default value. -/

/-- One declared parameter of a server tool wrapper. -/
structure ParamSpec where
  pname : String
  required : Bool
  deriving DecidableEq, Repr

/-- The tool wrappers of `server.py` with their parameter lists, in source
order.  `tool_load_data` is `def tool_load_data(path):` — no default. -/
def serverTools : List (String × List ParamSpec) :=
  [("tool_load_data", [⟨"path", true⟩]),
   ("tool_set_schema", [⟨"schema", true⟩]),
   ("tool_get_schema", []),
   ("tool_summary", [⟨"numeric_only", false⟩]),
   ("tool_head", [⟨"n", false⟩]),
   ("tool_top_categories", [⟨"columns", true⟩, ⟨"top_n", false⟩]),
   ("tool_correlations", [⟨"columns", false⟩, ⟨"method", false⟩]),
   ("tool_scatter_pairs", [⟨"pairs", true⟩]),
   ("tool_outliers", [⟨"columns", true⟩, ⟨"z", false⟩]),
   ("tool_missing", [⟨"threshold", false⟩]),
   ("tool_plot_hist", [⟨"column", true⟩, ⟨"nbins", false⟩]),
   ("tool_plot_xy", [⟨"x", true⟩, ⟨"y", true⟩]),
   ("tool_time_trend", [⟨"column", true⟩, ⟨"freq", false⟩])]

/-! ## Concrete fixtures used by witnesses and counterexamples -/

/-- An environment whose capabilities all succeed trivially (and whose
filesystem has no `dataset.csv` and no readable file). -/
def env0 : Env where
  defaultExists := false
  readCsv := fun _ => .error ⟨"FileNotFoundError", "missing file"⟩
  describe := fun _ _ => .ok .null
  corr := fun _ _ _ => .ok .null
  renderBar := fun _ _ _ => .ok ()
  renderScatter := fun _ _ _ => .ok ()
  renderHist := fun _ _ _ => .ok ()
  renderLine := fun _ _ _ => .ok ()
  toPeriod := fun _ t => .ok t
  sqrtQ := id

/-- An environment whose chart-rendering capabilities all fail. -/
def envRfail : Env :=
  { env0 with
    renderBar := fun _ _ _ => .error ⟨"ValueError", "boom"⟩
    renderScatter := fun _ _ _ => .error ⟨"ValueError", "boom"⟩
    renderHist := fun _ _ _ => .error ⟨"ValueError", "boom"⟩
    renderLine := fun _ _ _ => .error ⟨"ValueError", "boom"⟩ }

/-- A constant numeric column. -/
def colA : Column := ⟨"a", .float64, [.num 5, .num 5, .num 5]⟩

/-- A 3×1 dataset with a constant numeric column `a`. -/
def df1 : DataFrame := ⟨3, [colA]⟩

/-- An environment whose filesystem holds `dataset.csv` and parses every
file to `df1`. -/
def envCsv : Env :=
  { env0 with defaultExists := true, readCsv := fun _ => .ok df1 }

/-- The startup state: nothing loaded, no schema. -/
def st0 : State := ⟨none, none, none⟩

/-- A state with `df1` loaded. -/
def st1 : State := ⟨some df1, some "d.csv", none⟩

/-- A datetime column with a repeated value, out of order. -/
def colD0 : Column := ⟨"d", .datetime64, [.date 20, .date 10, .date 10]⟩

/-- An integer-year column, out of order. -/
def colY0 : Column := ⟨"y", .int64, [.num 2021, .num 2019, .num 2021]⟩

/-- A 3×2 dataset with a datetime column and an integer-year column. -/
def df2 : DataFrame := ⟨3, [colD0, colY0]⟩

/-- A state with `df2` loaded. -/
def st2 : State := ⟨some df2, some "t.csv", none⟩

/-- The error string of a returned result, when the operation returned a
dict with an `error` key. -/
def errStrOf (r : Except PyError JValue × State) : Option String :=
  match r.1 with
  | .ok v =>
      match v.getKey "error" with
      | some (.str s) => some s
      | _ => none
  | .error _ => none

/-- The discriminated-union invariant on a returned value: an `ok` boolean
discriminates between a pure error dict (exactly `{ok: false, error: s}`)
and a success payload carrying no `error` key. -/
def okDiscriminated (v : JValue) : Prop :=
  (v.getKey "ok" = some (.bool false) ∧ ∃ s, v = errObj s) ∨
  (v.getKey "ok" = some (.bool true) ∧ v.getKey "error" = none)

/-! ## Per-operation characterization lemmas

Each lemma enumerates every result an operation can produce, carrying the
full `(outcome, state)` pair; the claim theorems below read off the facts
they need. -/

theorem set_schema_eq (sc : Schema) (st : State) :
    set_schema sc st =
      (.ok (.obj [("ok", .bool true),
                  ("keys", .arr ((sc.map (·.1)).map JValue.str))]),
       { st with schema := some sc }) := rfl

theorem get_schema_eq (st : State) :
    get_schema st =
      (.ok (.obj [("ok", .bool st.schema.isSome),
                  ("schema", schemaToJ st.schema)]), st) := rfl

theorem load_data_shape (env : Env) (path : Option String) (st : State) :
    (path = none ∧ env.defaultExists = false ∧
      load_data env path st =
        (.ok (errObj "no_path_provided_and_dataset.csv_not_found"), st)) ∨
    (∃ cls m, load_data env path st =
        (.ok (errObj ("load_failed:" ++ cls ++ ":" ++ m)), st)) ∨
    (∃ df p, env.readCsv p = .ok df ∧
      load_data env path st =
        (.ok (.obj [("ok", .bool true), ("dataset", .str (basename p)),
                    ("rows", .num df.nrows), ("cols", .num df.cols.length),
                    ("columns", .arr (df.colNames.map JValue.str))]),
         { st with df := some df, name := some (basename p) })) := by
  unfold load_data loadFrom
  cases path with
  | none =>
      dsimp only
      cases hd : env.defaultExists with
      | false => exact .inl ⟨rfl, rfl, by simp [hd]⟩
      | true =>
          simp only [hd, if_true]
          cases hr : env.readCsv "dataset.csv" with
          | ok df => exact .inr (.inr ⟨df, "dataset.csv", hr, rfl⟩)
          | error e => exact .inr (.inl ⟨e.className, e.msg, rfl⟩)
  | some p =>
      dsimp only
      cases hr : env.readCsv p with
      | ok df => exact .inr (.inr ⟨df, p, hr, rfl⟩)
      | error e => exact .inr (.inl ⟨e.className, e.msg, rfl⟩)

theorem summary_shape (env : Env) (b : Bool) (st : State) :
    (∃ s, summary env b st = (.ok (errObj s), st) ∧
      (s = "no_dataset_loaded" ∨
        ∃ cls m, s = "summary_failed:" ++ cls ++ ":" ++ m)) ∨
    (∃ df d, st.df = some df ∧ summary env b st =
      (.ok (.obj [("ok", .bool true), ("rows", .num df.nrows),
                  ("cols", .num df.cols.length), ("describe", d)]), st)) := by
  unfold summary
  cases h : st.df with
  | none => exact .inl ⟨_, rfl, .inl rfl⟩
  | some df =>
      dsimp only
      cases hd : env.describe df b with
      | ok d => exact .inr ⟨df, d, rfl, rfl⟩
      | error e => exact .inl ⟨_, rfl, .inr ⟨e.className, e.msg, rfl⟩⟩

theorem head_shape (n : Int) (st : State) :
    (st.df = none ∧ head n st = (.ok (errObj "no_dataset_loaded"), st)) ∨
    (∃ df, st.df = some df ∧ head n st =
      (.ok (.obj [("ok", .bool true),
                  ("rows", .arr ((takeHead n (List.range df.nrows)).map
                    (headRecord df)))]), st)) := by
  unfold head
  cases h : st.df with
  | none => exact .inl ⟨rfl, rfl⟩
  | some df => exact .inr ⟨df, rfl, rfl⟩

theorem top_categories_shape (env : Env) (cs : List String) (tn : Int)
    (st : State) :
    (st.df = none ∧
      top_categories env cs tn st = (.ok (errObj "no_dataset_loaded"), st)) ∨
    (∃ df, st.df = some df ∧ top_categories env cs tn st =
      (.ok (.obj [("ok", .bool true),
                  ("top_categories", .obj (cs.foldl
                    (fun acc c => dictInsert acc c (topCatEntry env df tn c))
                    []))]), st)) := by
  unfold top_categories
  cases h : st.df with
  | none => exact .inl ⟨rfl, rfl⟩
  | some df => exact .inr ⟨df, rfl, rfl⟩

theorem correlations_shape (env : Env) (columns : Option (List String))
    (method : String) (st : State) :
    (∃ s, correlations env columns method st = (.ok (errObj s), st) ∧
      (s = "no_dataset_loaded" ∨ ∃ m, s = "correlation_failed:" ++ m)) ∨
    (∃ c, correlations env columns method st =
      (.ok (.obj [("ok", .bool true), ("method", .str method), ("corr", c)]),
       st)) := by
  unfold correlations
  cases h : st.df with
  | none => exact .inl ⟨_, rfl, .inl rfl⟩
  | some df =>
      dsimp only
      cases columns with
      | none =>
          dsimp only
          cases hc : env.corr df true method with
          | ok c => exact .inr ⟨c, rfl⟩
          | error e => exact .inl ⟨_, rfl, .inr ⟨e.msg, rfl⟩⟩
      | some cs =>
          dsimp only
          cases hs : selectCols df cs with
          | ok sub =>
              dsimp only
              cases hc : env.corr sub false method with
              | ok c => exact .inr ⟨c, rfl⟩
              | error e => exact .inl ⟨_, rfl, .inr ⟨e.msg, rfl⟩⟩
          | error e => exact .inl ⟨_, rfl, .inr ⟨e.msg, rfl⟩⟩

theorem scatter_pairs_shape (env : Env) (ps : List (String × String))
    (st : State) :
    (st.df = none ∧
      scatter_pairs env ps st = (.ok (errObj "no_dataset_loaded"), st)) ∨
    (∃ df, st.df = some df ∧ scatter_pairs env ps st =
      (.ok (.obj [("ok", .bool true),
                  ("pairs_rendered", .arr (ps.map (scatterEntry env df)))]),
       st)) := by
  unfold scatter_pairs
  cases h : st.df with
  | none => exact .inl ⟨rfl, rfl⟩
  | some df => exact .inr ⟨df, rfl, rfl⟩

theorem outliers_shape (env : Env) (cs : List String) (z : ℚ) (st : State) :
    (∃ s, outliers env cs z st = (.ok (errObj s), st) ∧
      (s = "no_dataset_loaded" ∨ ∃ m, s = "outlier_failed:" ++ m)) ∨
    (∃ df sel, st.df = some df ∧ selectCols df cs = .ok sel ∧
      outliers env cs z st =
        (.ok (.obj [("ok", .bool true),
          ("count", .num ((List.range df.nrows).filter
            (rowMask env (selectNumeric sel) z)).length),
          ("indices", .arr (((List.range df.nrows).filter
            (rowMask env (selectNumeric sel) z)).map
              (fun i => JValue.num i)))]), st)) := by
  unfold outliers
  cases h : st.df with
  | none => exact .inl ⟨_, rfl, .inl rfl⟩
  | some df =>
      dsimp only
      cases hs : selectCols df cs with
      | ok sel => exact .inr ⟨df, sel, rfl, hs, rfl⟩
      | error e => exact .inl ⟨_, rfl, .inr ⟨e.msg, rfl⟩⟩

theorem missing_shape (t : ℚ) (st : State) :
    (st.df = none ∧ missing t st = (.ok (errObj "no_dataset_loaded"), st)) ∨
    (∃ df fl, st.df = some df ∧ missing t st =
      (.ok (.obj [("ok", .bool true), ("threshold", .num t),
                  ("missing", .obj fl)]), st)) := by
  unfold missing
  cases h : st.df with
  | none => exact .inl ⟨rfl, rfl⟩
  | some df => exact .inr ⟨df, _, rfl, rfl⟩

theorem plot_hist_shape (env : Env) (c : String) (nb : Int) (st : State) :
    (∃ s, plot_hist env c nb st = (.ok (errObj s), st) ∧
      (s = "no_dataset_loaded" ∨ ∃ m, s = "plot_hist_failed:" ++ m)) ∨
    plot_hist env c nb st = (.ok (.obj [("ok", .bool true)]), st) := by
  unfold plot_hist
  cases h : st.df with
  | none => exact .inl ⟨_, rfl, .inl rfl⟩
  | some df =>
      dsimp only
      cases hr : env.renderHist df c nb with
      | ok u => exact .inr rfl
      | error e => exact .inl ⟨_, rfl, .inr ⟨e.msg, rfl⟩⟩

theorem plot_xy_shape (env : Env) (x y : String) (st : State) :
    (∃ s, plot_xy env x y st = (.ok (errObj s), st) ∧
      (s = "no_dataset_loaded" ∨ ∃ m, s = "plot_xy_failed:" ++ m)) ∨
    plot_xy env x y st = (.ok (.obj [("ok", .bool true)]), st) := by
  unfold plot_xy
  cases h : st.df with
  | none => exact .inl ⟨_, rfl, .inl rfl⟩
  | some df =>
      dsimp only
      cases hr : env.renderScatter df x y with
      | ok u => exact .inr rfl
      | error e => exact .inl ⟨_, rfl, .inr ⟨e.msg, rfl⟩⟩

theorem time_trend_shape (env : Env) (c f : String) (st : State) :
    (st.df = none ∧
      time_trend env c f st = (.ok (errObj "no_dataset_loaded"), st)) ∨
    (∃ df, st.df = some df ∧
      ((getColumn df c = none ∧
          time_trend env c f st = (.error ⟨"KeyError", c⟩, st)) ∨
       (∃ m, time_trend env c f st =
          (.ok (errObj ("time_trend_failed:" ++ m)), st)) ∨
       (∃ ty l, (ty = "datetime" ∨ ty = "year-int") ∧
          time_trend env c f st = (.ok (mkTrend ty l), st)))) := by
  unfold time_trend getCol
  cases h : st.df with
  | none => exact .inl ⟨rfl, rfl⟩
  | some df =>
      refine .inr ⟨df, rfl, ?_⟩
      dsimp only
      cases hc : getColumn df c with
      | none => exact .inl ⟨rfl, rfl⟩
      | some s =>
          refine .inr ?_
          dsimp only
          by_cases hdt : s.dtype = .datetime64
          · simp only [hdt, if_true]
            cases hm : mapExcept (env.toPeriod f) (dateVals s) with
            | error e => exact .inl ⟨e.msg, rfl⟩
            | ok ps =>
                dsimp only
                cases hr : env.renderLine ((valueCountsSorted ps).map (·.1))
                    ((valueCountsSorted ps).map (fun p => (p.2 : ℚ)))
                    ("Count by " ++ f ++ ": " ++ c) with
                | ok u =>
                    exact .inr ⟨"datetime", valueCountsSorted ps, .inl rfl, by
                      simp only [hr]⟩
                | error e => exact .inl ⟨e.msg, by simp only [hr]⟩
          · simp only [hdt, if_false]
            cases hr : env.renderLine ((valueCountsSorted (intVals s)).map (·.1))
                ((valueCountsSorted (intVals s)).map (fun p => (p.2 : ℚ)))
                ("Count by Year: " ++ c) with
            | ok u =>
                exact .inr ⟨"year-int", valueCountsSorted (intVals s), .inr rfl,
                  by simp only [hr]⟩
            | error e => exact .inl ⟨e.msg, by simp only [hr]⟩

/-! ## Claim C1 -/

/-- C1: every operation with `requiresDataset=true` (summary, head,
top_categories, correlations, scatter_pairs, outliers, missing, plot_hist,
plot_xy, time_trend), invoked while the table slot is absent, returns
`ok:false` with error exactly `"no_dataset_loaded"` and leaves the state
unchanged, for every argument value and every environment — in particular
the result never depends on the underlying computation capabilities, which
are therefore not invoked. -/
theorem c1_no_dataset_gate (env : Env) (st : State) (h : st.df = none) :
    (∀ b, summary env b st = (.ok (errObj "no_dataset_loaded"), st)) ∧
    (∀ n, head n st = (.ok (errObj "no_dataset_loaded"), st)) ∧
    (∀ cs tn, top_categories env cs tn st =
      (.ok (errObj "no_dataset_loaded"), st)) ∧
    (∀ cols m, correlations env cols m st =
      (.ok (errObj "no_dataset_loaded"), st)) ∧
    (∀ ps, scatter_pairs env ps st = (.ok (errObj "no_dataset_loaded"), st)) ∧
    (∀ cs z, outliers env cs z st = (.ok (errObj "no_dataset_loaded"), st)) ∧
    (∀ t, missing t st = (.ok (errObj "no_dataset_loaded"), st)) ∧
    (∀ c nb, plot_hist env c nb st = (.ok (errObj "no_dataset_loaded"), st)) ∧
    (∀ x y, plot_xy env x y st = (.ok (errObj "no_dataset_loaded"), st)) ∧
    (∀ c f, time_trend env c f st = (.ok (errObj "no_dataset_loaded"), st)) := by
  refine ⟨fun b => ?_, fun n => ?_, fun cs tn => ?_, fun cols m => ?_,
    fun ps => ?_, fun cs z => ?_, fun t => ?_, fun c nb => ?_,
    fun x y => ?_, fun c f => ?_⟩ <;>
  simp only [summary, head, top_categories, correlations, scatter_pairs,
    outliers, missing, plot_hist, plot_xy, time_trend, h]

/-- Witness for C1: the gate at the startup state with concrete arguments. -/
theorem c1_no_dataset_gate_witness :
    summary env0 true st0 = (.ok (errObj "no_dataset_loaded"), st0) ∧
    head 5 st0 = (.ok (errObj "no_dataset_loaded"), st0) ∧
    top_categories env0 ["a"] 10 st0 = (.ok (errObj "no_dataset_loaded"), st0) ∧
    correlations env0 none "pearson" st0 =
      (.ok (errObj "no_dataset_loaded"), st0) ∧
    scatter_pairs env0 [("x", "y")] st0 =
      (.ok (errObj "no_dataset_loaded"), st0) ∧
    outliers env0 ["a"] 3 st0 = (.ok (errObj "no_dataset_loaded"), st0) ∧
    missing (1 / 5) st0 = (.ok (errObj "no_dataset_loaded"), st0) ∧
    plot_hist env0 "a" 30 st0 = (.ok (errObj "no_dataset_loaded"), st0) ∧
    plot_xy env0 "x" "y" st0 = (.ok (errObj "no_dataset_loaded"), st0) ∧
    time_trend env0 "a" "M" st0 = (.ok (errObj "no_dataset_loaded"), st0) := by
  have h := c1_no_dataset_gate env0 st0 rfl
  exact ⟨h.1 true, h.2.1 5, h.2.2.1 ["a"] 10, h.2.2.2.1 none "pearson",
    h.2.2.2.2.1 [("x", "y")], h.2.2.2.2.2.1 ["a"] 3, h.2.2.2.2.2.2.1 (1 / 5),
    h.2.2.2.2.2.2.2.1 "a" 30, h.2.2.2.2.2.2.2.2.1 "x" "y",
    h.2.2.2.2.2.2.2.2.2 "a" "M"⟩

/-! ## Claim C10 -/

/-- C10: frame condition on the global STATE — `set_schema` writes only the
schema slot, `load_data` never touches the schema slot, and every other
operation leaves the whole state unchanged, for every argument and
environment. -/
theorem c10_state_frame (env : Env) (st : State) :
    (∀ sc, (set_schema sc st).2.df = st.df ∧
      (set_schema sc st).2.name = st.name ∧
      (set_schema sc st).2.schema = some sc) ∧
    (∀ p, (load_data env p st).2.schema = st.schema) ∧
    (get_schema st).2 = st ∧
    (∀ b, (summary env b st).2 = st) ∧
    (∀ n, (head n st).2 = st) ∧
    (∀ cs tn, (top_categories env cs tn st).2 = st) ∧
    (∀ cols m, (correlations env cols m st).2 = st) ∧
    (∀ ps, (scatter_pairs env ps st).2 = st) ∧
    (∀ cs z, (outliers env cs z st).2 = st) ∧
    (∀ t, (missing t st).2 = st) ∧
    (∀ c nb, (plot_hist env c nb st).2 = st) ∧
    (∀ x y, (plot_xy env x y st).2 = st) ∧
    (∀ c f, (time_trend env c f st).2 = st) := by
  refine ⟨fun sc => ⟨rfl, rfl, rfl⟩, fun p => ?_, rfl, fun b => ?_,
    fun n => ?_, fun cs tn => ?_, fun cols m => ?_, fun ps => ?_,
    fun cs z => ?_, fun t => ?_, fun c nb => ?_, fun x y => ?_,
    fun c f => ?_⟩
  · rcases load_data_shape env p st with ⟨_, _, he⟩ | ⟨cls, m, he⟩ |
      ⟨df, pp, hr, he⟩ <;> rw [he]
  · rcases summary_shape env b st with ⟨s, he, _⟩ | ⟨df, d, _, he⟩ <;> rw [he]
  · rcases head_shape n st with ⟨_, he⟩ | ⟨df, _, he⟩ <;> rw [he]
  · rcases top_categories_shape env cs tn st with ⟨_, he⟩ | ⟨df, _, he⟩ <;>
      rw [he]
  · rcases correlations_shape env cols m st with ⟨s, he, _⟩ | ⟨c, he⟩ <;>
      rw [he]
  · rcases scatter_pairs_shape env ps st with ⟨_, he⟩ | ⟨df, _, he⟩ <;> rw [he]
  · rcases outliers_shape env cs z st with ⟨s, he, _⟩ | ⟨df, sel, _, _, he⟩ <;>
      rw [he]
  · rcases missing_shape t st with ⟨_, he⟩ | ⟨df, fl, _, he⟩ <;> rw [he]
  · rcases plot_hist_shape env c nb st with ⟨s, he, _⟩ | he <;> rw [he]
  · rcases plot_xy_shape env x y st with ⟨s, he, _⟩ | he <;> rw [he]
  · rcases time_trend_shape env c f st with ⟨_, he⟩ |
      ⟨df, _, ⟨_, he⟩ | ⟨m, he⟩ | ⟨ty, l, _, he⟩⟩ <;> rw [he]

/-! ## Claim C2 -/

/-- C2: `load_data` is atomic.  For every prior state and every path whose
file fails to parse, the call returns `ok:false` with a
`load_failed:<class>:<message>` error and leaves the table and name slots
exactly as they were (so a subsequent `head` still reflects the previous
dataset); on success it replaces the table and name slots together, leaving
the schema slot alone. -/
theorem c2_load_atomic (env : Env) (st : State) (p : String) :
    (∀ e, env.readCsv p = .error e →
      load_data env (some p) st =
        (.ok (errObj ("load_failed:" ++ e.className ++ ":" ++ e.msg)), st) ∧
      (∀ n, head n (load_data env (some p) st).2 = head n st)) ∧
    (∀ df, env.readCsv p = .ok df →
      load_data env (some p) st =
        (.ok (.obj [("ok", .bool true), ("dataset", .str (basename p)),
                    ("rows", .num df.nrows), ("cols", .num df.cols.length),
                    ("columns", .arr (df.colNames.map JValue.str))]),
         { st with df := some df, name := some (basename p) })) := by
  constructor
  · intro e he
    have heq : load_data env (some p) st =
        (.ok (errObj ("load_failed:" ++ e.className ++ ":" ++ e.msg)), st) := by
      unfold load_data loadFrom
      simp only [he]
    exact ⟨heq, fun n => by rw [heq]⟩
  · intro df hdf
    unfold load_data loadFrom
    simp only [hdf]

/-- Witness for C2: a failed load on a bad path leaves the loaded dataset
visible to `head`, and a successful load replaces table and name. -/
theorem c2_load_atomic_witness :
    (load_data env0 (some "bad.csv") st1 =
      (.ok (errObj "load_failed:FileNotFoundError:missing file"), st1) ∧
     head 2 (load_data env0 (some "bad.csv") st1).2 = head 2 st1) ∧
    load_data envCsv (some "d.csv") st0 =
      (.ok (.obj [("ok", .bool true), ("dataset", .str (basename "d.csv")),
                  ("rows", .num df1.nrows), ("cols", .num df1.cols.length),
                  ("columns", .arr (df1.colNames.map JValue.str))]),
       { st0 with df := some df1, name := some (basename "d.csv") }) := by
  have h1 := (c2_load_atomic env0 st1 "bad.csv").1
    ⟨"FileNotFoundError", "missing file"⟩ rfl
  have h2 := (c2_load_atomic envCsv st0 "d.csv").2 df1 rfl
  exact ⟨⟨h1.1, h1.2 2⟩, h2⟩

/-! ## Claim C8 -/

/-- C8 counterexample: the claim says `path` may be absent at the public
operation surface, but the `server.py` wrapper is `def tool_load_data(path):`
— its `path` parameter has no default, so it is required at the tool surface
and an invocation without it is rejected before reaching `load_data`. -/
theorem c8_counterexample :
    ¬ (∀ ps ∈ (serverTools.lookup "tool_load_data").getD [],
        ps.required = false) := by decide

/-- C8 (amended): at the `tools_core.load_data` level the `path` argument is
optional; when it is `None` the operation falls back to the conventional
default filename `dataset.csv` in the working directory, and if that file
does not exist it fails with the fixed no-path sentinel rather than raising.
(The `server.py` wrapper, however, declares `path` without a default, so the
argument is required at the public tool surface.) -/
theorem c8_default_path (env : Env) (st : State) :
    (env.defaultExists = false →
      load_data env none st =
        (.ok (errObj "no_path_provided_and_dataset.csv_not_found"), st)) ∧
    (env.defaultExists = true →
      load_data env none st = loadFrom env "dataset.csv" st) := by
  constructor <;> intro h <;> unfold load_data <;> simp only [h] <;> rfl

/-- Witness for C8: with no `dataset.csv` the fallback fails with the
sentinel; with `dataset.csv` present the fallback loads it. -/
theorem c8_default_path_witness :
    load_data env0 none st0 =
      (.ok (errObj "no_path_provided_and_dataset.csv_not_found"), st0) ∧
    load_data envCsv none st0 = loadFrom envCsv "dataset.csv" st0 := by
  exact ⟨(c8_default_path env0 st0).1 rfl, (c8_default_path envCsv st0).2 rfl⟩

/-! ## Claim C3 -/

/-- C3 counterexample: with a dataset loaded, `time_trend` on a column that
is not in the table raises `KeyError` to the caller — `s = df[column]` runs
before the `try` block in `tools_core.py` — so it is not true that every
computation error is converted into an `ok:false` result and that raising
is unreachable. -/
theorem c3_counterexample :
    time_trend env0 "b" "M" st1 = (.error ⟨"KeyError", "b"⟩, st1) := rfl

/-- C3 (amended): with a dataset loaded, every operation except `time_trend`
recovers every error of the underlying computation into a returned
`ok:false` result — no exception propagates for any environment, state or
argument; `time_trend` also never raises once its initial column access
succeeds (the access before its `try` block is the single uncovered point). -/
theorem c3_no_uncaught_raise (env : Env) (st : State) :
    (∀ p, ∃ v, (load_data env p st).1 = .ok v) ∧
    (∀ sc, ∃ v, (set_schema sc st).1 = .ok v) ∧
    (∃ v, (get_schema st).1 = .ok v) ∧
    (∀ b, ∃ v, (summary env b st).1 = .ok v) ∧
    (∀ n, ∃ v, (head n st).1 = .ok v) ∧
    (∀ cs tn, ∃ v, (top_categories env cs tn st).1 = .ok v) ∧
    (∀ cols m, ∃ v, (correlations env cols m st).1 = .ok v) ∧
    (∀ ps, ∃ v, (scatter_pairs env ps st).1 = .ok v) ∧
    (∀ cs z, ∃ v, (outliers env cs z st).1 = .ok v) ∧
    (∀ t, ∃ v, (missing t st).1 = .ok v) ∧
    (∀ c nb, ∃ v, (plot_hist env c nb st).1 = .ok v) ∧
    (∀ x y, ∃ v, (plot_xy env x y st).1 = .ok v) ∧
    (∀ c f df col, st.df = some df → getColumn df c = some col →
      ∃ v, (time_trend env c f st).1 = .ok v) := by
  refine ⟨fun p => ?_, fun sc => ⟨_, rfl⟩, ⟨_, rfl⟩, fun b => ?_, fun n => ?_,
    fun cs tn => ?_, fun cols m => ?_, fun ps => ?_, fun cs z => ?_,
    fun t => ?_, fun c nb => ?_, fun x y => ?_, fun c f df col hdf hcol => ?_⟩
  · rcases load_data_shape env p st with ⟨_, _, he⟩ | ⟨cls, m, he⟩ |
      ⟨d, pp, _, he⟩ <;> rw [he] <;> exact ⟨_, rfl⟩
  · rcases summary_shape env b st with ⟨s, he, _⟩ | ⟨d, dd, _, he⟩ <;>
      rw [he] <;> exact ⟨_, rfl⟩
  · rcases head_shape n st with ⟨_, he⟩ | ⟨d, _, he⟩ <;> rw [he] <;>
      exact ⟨_, rfl⟩
  · rcases top_categories_shape env cs tn st with ⟨_, he⟩ | ⟨d, _, he⟩ <;>
      rw [he] <;> exact ⟨_, rfl⟩
  · rcases correlations_shape env cols m st with ⟨s, he, _⟩ | ⟨c, he⟩ <;>
      rw [he] <;> exact ⟨_, rfl⟩
  · rcases scatter_pairs_shape env ps st with ⟨_, he⟩ | ⟨d, _, he⟩ <;>
      rw [he] <;> exact ⟨_, rfl⟩
  · rcases outliers_shape env cs z st with ⟨s, he, _⟩ | ⟨d, sel, _, _, he⟩ <;>
      rw [he] <;> exact ⟨_, rfl⟩
  · rcases missing_shape t st with ⟨_, he⟩ | ⟨d, fl, _, he⟩ <;> rw [he] <;>
      exact ⟨_, rfl⟩
  · rcases plot_hist_shape env c nb st with ⟨s, he, _⟩ | he <;> rw [he] <;>
      exact ⟨_, rfl⟩
  · rcases plot_xy_shape env x y st with ⟨s, he, _⟩ | he <;> rw [he] <;>
      exact ⟨_, rfl⟩
  · rcases time_trend_shape env c f st with ⟨h0, _⟩ |
      ⟨d, hd, ⟨hnone, _⟩ | ⟨m, he⟩ | ⟨ty, l, _, he⟩⟩
    · rw [h0] at hdf; exact Option.noConfusion hdf
    · rw [hdf] at hd
      cases Option.some.inj hd
      rw [hcol] at hnone
      exact Option.noConfusion hnone
    · rw [he]; exact ⟨_, rfl⟩
    · rw [he]; exact ⟨_, rfl⟩

/-- Witness for C3 (amended) at concrete inputs, including `time_trend` on
a present column. -/
theorem c3_no_uncaught_raise_witness :
    (∃ v, (head 5 st1).1 = .ok v) ∧
    (∃ v, (time_trend env0 "a" "M" st1).1 = .ok v) := by
  have h := c3_no_uncaught_raise env0 st1
  exact ⟨h.2.2.2.2.1 5, h.2.2.2.2.2.2.2.2.2.2.2.2 "a" "M" df1 colA rfl rfl⟩

/-! ## Claim C4 -/

theorem errStrOf_errObj (s : String) (st : State) :
    errStrOf (.ok (errObj s), st) = some s := rfl

/-- C4 counterexample: `correlations` on a missing column fails with
`correlation_failed:<message>` — the underlying error's class name
(`KeyError`) does not appear between the `_failed:` tag and the message, so
the error string is not of the claimed `"<context>_failed:<ErrorClass>:<message>"`
form (any string of that form would start with `correlation_failed:KeyError:`). -/
theorem c4_counterexample :
    errStrOf (correlations env0 (some ["b"]) "pearson" st1) =
      some "correlation_failed:b not in index" ∧
    ("correlation_failed:KeyError:").data.isPrefixOf
      ("correlation_failed:b not in index").data = false := by
  exact ⟨rfl, by decide⟩

/-- C4 (amended): every error string returned by any operation is either a
fixed sentinel (`no_dataset_loaded`, or load's no-path sentinel), or a
machine-parsable tag — `load_failed:<ErrorClass>:<message>` and
`summary_failed:<ErrorClass>:<message>` carry the underlying error's class
name, while `correlation_failed:`, `outlier_failed:`, `plot_hist_failed:`,
`plot_xy_failed:` and `time_trend_failed:` are followed by the message
only, without the class name. -/
theorem c4_error_string_formats (env : Env) (st : State) :
    (∀ p s, errStrOf (load_data env p st) = some s →
      s = "no_path_provided_and_dataset.csv_not_found" ∨
      ∃ cls m, s = "load_failed:" ++ cls ++ ":" ++ m) ∧
    (∀ sc, errStrOf (set_schema sc st) = none) ∧
    errStrOf (get_schema st) = none ∧
    (∀ b s, errStrOf (summary env b st) = some s →
      s = "no_dataset_loaded" ∨
      ∃ cls m, s = "summary_failed:" ++ cls ++ ":" ++ m) ∧
    (∀ n s, errStrOf (head n st) = some s → s = "no_dataset_loaded") ∧
    (∀ cs tn s, errStrOf (top_categories env cs tn st) = some s →
      s = "no_dataset_loaded") ∧
    (∀ cols m s, errStrOf (correlations env cols m st) = some s →
      s = "no_dataset_loaded" ∨ ∃ mg, s = "correlation_failed:" ++ mg) ∧
    (∀ ps s, errStrOf (scatter_pairs env ps st) = some s →
      s = "no_dataset_loaded") ∧
    (∀ cs z s, errStrOf (outliers env cs z st) = some s →
      s = "no_dataset_loaded" ∨ ∃ mg, s = "outlier_failed:" ++ mg) ∧
    (∀ t s, errStrOf (missing t st) = some s → s = "no_dataset_loaded") ∧
    (∀ c nb s, errStrOf (plot_hist env c nb st) = some s →
      s = "no_dataset_loaded" ∨ ∃ mg, s = "plot_hist_failed:" ++ mg) ∧
    (∀ x y s, errStrOf (plot_xy env x y st) = some s →
      s = "no_dataset_loaded" ∨ ∃ mg, s = "plot_xy_failed:" ++ mg) ∧
    (∀ c f s, errStrOf (time_trend env c f st) = some s →
      s = "no_dataset_loaded" ∨ ∃ mg, s = "time_trend_failed:" ++ mg) := by
  refine ⟨fun p s h => ?_, fun sc => rfl, rfl, fun b s h => ?_,
    fun n s h => ?_, fun cs tn s h => ?_, fun cols m s h => ?_,
    fun ps s h => ?_, fun cs z s h => ?_, fun t s h => ?_,
    fun c nb s h => ?_, fun x y s h => ?_, fun c f s h => ?_⟩
  · rcases load_data_shape env p st with ⟨_, _, he⟩ | ⟨cls, m, he⟩ |
      ⟨d, pp, _, he⟩
    · rw [he, errStrOf_errObj] at h
      exact .inl (Option.some.inj h).symm
    · rw [he, errStrOf_errObj] at h
      exact .inr ⟨cls, m, (Option.some.inj h).symm⟩
    · rw [he] at h
      exact Option.noConfusion (show (none : Option String) = some s from h)
  · rcases summary_shape env b st with ⟨s', he, hs⟩ | ⟨d, dd, _, he⟩
    · rw [he, errStrOf_errObj] at h
      cases Option.some.inj h
      rcases hs with h1 | ⟨cls, m, h2⟩
      · exact .inl h1
      · exact .inr ⟨cls, m, h2⟩
    · rw [he] at h
      exact Option.noConfusion (show (none : Option String) = some s from h)
  · rcases head_shape n st with ⟨_, he⟩ | ⟨d, _, he⟩
    · rw [he, errStrOf_errObj] at h
      exact (Option.some.inj h).symm
    · rw [he] at h
      exact Option.noConfusion (show (none : Option String) = some s from h)
  · rcases top_categories_shape env cs tn st with ⟨_, he⟩ | ⟨d, _, he⟩
    · rw [he, errStrOf_errObj] at h
      exact (Option.some.inj h).symm
    · rw [he] at h
      exact Option.noConfusion (show (none : Option String) = some s from h)
  · rcases correlations_shape env cols m st with ⟨s', he, hs⟩ | ⟨cc, he⟩
    · rw [he, errStrOf_errObj] at h
      cases Option.some.inj h
      exact hs
    · rw [he] at h
      exact Option.noConfusion (show (none : Option String) = some s from h)
  · rcases scatter_pairs_shape env ps st with ⟨_, he⟩ | ⟨d, _, he⟩
    · rw [he, errStrOf_errObj] at h
      exact (Option.some.inj h).symm
    · rw [he] at h
      exact Option.noConfusion (show (none : Option String) = some s from h)
  · rcases outliers_shape env cs z st with ⟨s', he, hs⟩ | ⟨d, sel, _, _, he⟩
    · rw [he, errStrOf_errObj] at h
      cases Option.some.inj h
      exact hs
    · rw [he] at h
      exact Option.noConfusion (show (none : Option String) = some s from h)
  · rcases missing_shape t st with ⟨_, he⟩ | ⟨d, fl, _, he⟩
    · rw [he, errStrOf_errObj] at h
      exact (Option.some.inj h).symm
    · rw [he] at h
      exact Option.noConfusion (show (none : Option String) = some s from h)
  · rcases plot_hist_shape env c nb st with ⟨s', he, hs⟩ | he
    · rw [he, errStrOf_errObj] at h
      cases Option.some.inj h
      exact hs
    · rw [he] at h
      exact Option.noConfusion (show (none : Option String) = some s from h)
  · rcases plot_xy_shape env x y st with ⟨s', he, hs⟩ | he
    · rw [he, errStrOf_errObj] at h
      cases Option.some.inj h
      exact hs
    · rw [he] at h
      exact Option.noConfusion (show (none : Option String) = some s from h)
  · rcases time_trend_shape env c f st with ⟨_, he⟩ |
      ⟨d, _, ⟨_, he⟩ | ⟨mg, he⟩ | ⟨ty, l, _, he⟩⟩
    · rw [he, errStrOf_errObj] at h
      exact .inl (Option.some.inj h).symm
    · rw [he] at h
      exact Option.noConfusion (show (none : Option String) = some s from h)
    · rw [he, errStrOf_errObj] at h
      cases Option.some.inj h
      exact .inr ⟨mg, rfl⟩
    · rw [he] at h
      exact Option.noConfusion (show (none : Option String) = some s from h)

/-- Witness for C4 (amended): a concrete failed `outliers` call whose error
string carries the `outlier_failed:` tag without a class name. -/
theorem c4_error_string_formats_witness :
    "outlier_failed:b not in index" = "no_dataset_loaded" ∨
    ∃ mg, "outlier_failed:b not in index" = "outlier_failed:" ++ mg := by
  exact (c4_error_string_formats env0 st1).2.2.2.2.2.2.2.2.1 ["b"] 3
    "outlier_failed:b not in index" rfl

/-! ## Claim C5 -/

/-- C5 counterexample: `get_schema` before any `set_schema` returns
`{"ok": False, "schema": None}` — `ok` is false yet no `error` key is
present, violating the claimed invariant that every operation's `ok:false`
result carries an error string. -/
theorem c5_counterexample :
    get_schema st0 =
      (.ok (.obj [("ok", .bool false), ("schema", .null)]), st0) ∧
    (JValue.obj [("ok", .bool false), ("schema", .null)]).getKey "error" =
      none := ⟨rfl, rfl⟩

/-- C5 (amended): every operation except `get_schema` satisfies the
discriminated-union invariant — each returned value carries an `ok`
boolean, an `ok:false` result is exactly `{ok, error}`, and an `ok:true`
result has no `error` key.  `get_schema` instead reports `ok` as schema
presence with the schema value itself and never an `error` key. -/
theorem c5_result_discriminated (env : Env) (st : State) :
    (∀ p v st', load_data env p st = (.ok v, st') → okDiscriminated v) ∧
    (∀ sc v st', set_schema sc st = (.ok v, st') → okDiscriminated v) ∧
    (∀ b v st', summary env b st = (.ok v, st') → okDiscriminated v) ∧
    (∀ n v st', head n st = (.ok v, st') → okDiscriminated v) ∧
    (∀ cs tn v st', top_categories env cs tn st = (.ok v, st') →
      okDiscriminated v) ∧
    (∀ cols m v st', correlations env cols m st = (.ok v, st') →
      okDiscriminated v) ∧
    (∀ ps v st', scatter_pairs env ps st = (.ok v, st') →
      okDiscriminated v) ∧
    (∀ cs z v st', outliers env cs z st = (.ok v, st') →
      okDiscriminated v) ∧
    (∀ t v st', missing t st = (.ok v, st') → okDiscriminated v) ∧
    (∀ c nb v st', plot_hist env c nb st = (.ok v, st') →
      okDiscriminated v) ∧
    (∀ x y v st', plot_xy env x y st = (.ok v, st') → okDiscriminated v) ∧
    (∀ c f v st', time_trend env c f st = (.ok v, st') →
      okDiscriminated v) ∧
    (∀ v st', get_schema st = (.ok v, st') →
      v.getKey "error" = none ∧
      v.getKey "ok" = some (.bool st.schema.isSome)) := by
  have herr : ∀ s : String, okDiscriminated (errObj s) :=
    fun s => .inl ⟨rfl, s, rfl⟩
  refine ⟨fun p v st' h => ?_, fun sc v st' h => ?_, fun b v st' h => ?_,
    fun n v st' h => ?_, fun cs tn v st' h => ?_, fun cols m v st' h => ?_,
    fun ps v st' h => ?_, fun cs z v st' h => ?_, fun t v st' h => ?_,
    fun c nb v st' h => ?_, fun x y v st' h => ?_, fun c f v st' h => ?_,
    fun v st' h => ?_⟩
  · rcases load_data_shape env p st with ⟨_, _, he⟩ | ⟨cls, m, he⟩ |
      ⟨d, pp, _, he⟩ <;> rw [he] at h <;>
      cases Except.ok.inj (Prod.mk.inj h).1
    · exact herr _
    · exact herr _
    · exact .inr ⟨rfl, rfl⟩
  · rw [set_schema_eq] at h
    cases Except.ok.inj (Prod.mk.inj h).1
    exact .inr ⟨rfl, rfl⟩
  · rcases summary_shape env b st with ⟨s, he, _⟩ | ⟨d, dd, _, he⟩ <;>
      rw [he] at h <;> cases Except.ok.inj (Prod.mk.inj h).1
    · exact herr _
    · exact .inr ⟨rfl, rfl⟩
  · rcases head_shape n st with ⟨_, he⟩ | ⟨d, _, he⟩ <;> rw [he] at h <;>
      cases Except.ok.inj (Prod.mk.inj h).1
    · exact herr _
    · exact .inr ⟨rfl, rfl⟩
  · rcases top_categories_shape env cs tn st with ⟨_, he⟩ | ⟨d, _, he⟩ <;>
      rw [he] at h <;> cases Except.ok.inj (Prod.mk.inj h).1
    · exact herr _
    · exact .inr ⟨rfl, rfl⟩
  · rcases correlations_shape env cols m st with ⟨s, he, _⟩ | ⟨cc, he⟩ <;>
      rw [he] at h <;> cases Except.ok.inj (Prod.mk.inj h).1
    · exact herr _
    · exact .inr ⟨rfl, rfl⟩
  · rcases scatter_pairs_shape env ps st with ⟨_, he⟩ | ⟨d, _, he⟩ <;>
      rw [he] at h <;> cases Except.ok.inj (Prod.mk.inj h).1
    · exact herr _
    · exact .inr ⟨rfl, rfl⟩
  · rcases outliers_shape env cs z st with ⟨s, he, _⟩ |
      ⟨d, sel, _, _, he⟩ <;> rw [he] at h <;>
      cases Except.ok.inj (Prod.mk.inj h).1
    · exact herr _
    · exact .inr ⟨rfl, rfl⟩
  · rcases missing_shape t st with ⟨_, he⟩ | ⟨d, fl, _, he⟩ <;>
      rw [he] at h <;> cases Except.ok.inj (Prod.mk.inj h).1
    · exact herr _
    · exact .inr ⟨rfl, rfl⟩
  · rcases plot_hist_shape env c nb st with ⟨s, he, _⟩ | he <;>
      rw [he] at h <;> cases Except.ok.inj (Prod.mk.inj h).1
    · exact herr _
    · exact .inr ⟨rfl, rfl⟩
  · rcases plot_xy_shape env x y st with ⟨s, he, _⟩ | he <;>
      rw [he] at h <;> cases Except.ok.inj (Prod.mk.inj h).1
    · exact herr _
    · exact .inr ⟨rfl, rfl⟩
  · rcases time_trend_shape env c f st with ⟨_, he⟩ |
      ⟨d, _, ⟨_, he⟩ | ⟨mg, he⟩ | ⟨ty, l, _, he⟩⟩ <;> rw [he] at h
    · cases Except.ok.inj (Prod.mk.inj h).1
      exact herr _
    · exact Except.noConfusion (Prod.mk.inj h).1
    · cases Except.ok.inj (Prod.mk.inj h).1
      exact herr _
    · cases Except.ok.inj (Prod.mk.inj h).1
      exact .inr ⟨rfl, rfl⟩
  · rw [get_schema_eq] at h
    cases Except.ok.inj (Prod.mk.inj h).1
    exact ⟨rfl, rfl⟩

/-- Witness for C5 (amended): `plot_xy` at a loaded state whose render
succeeds yields a discriminated success value. -/
theorem c5_result_discriminated_witness :
    okDiscriminated (.obj [("ok", .bool true)]) := by
  exact (c5_result_discriminated env0 st1).2.2.2.2.2.2.2.2.2.2.1 "x" "y"
    (.obj [("ok", .bool true)]) st1 rfl

/-! ## Claim C9 -/

theorem lookup_dictInsert_self (k : String) (v : JValue) :
    ∀ kvs, (dictInsert kvs k v).lookup k = some v := by
  intro kvs
  induction kvs with
  | nil => simp [dictInsert, List.lookup]
  | cons p kvs ih =>
      by_cases hp : p.1 = k
      · simp [dictInsert, hp, List.lookup]
      · have hne : (k == p.1) = false := by
          simp [Ne.symm hp]
        simp [dictInsert, hp, List.lookup, hne, ih]

theorem lookup_dictInsert_ne (d k : String) (v : JValue) (h : d ≠ k) :
    ∀ kvs, (dictInsert kvs d v).lookup k = kvs.lookup k := by
  intro kvs
  have hkd : (k == d) = false := by simp [Ne.symm h]
  induction kvs with
  | nil => simp [dictInsert, List.lookup, hkd]
  | cons p kvs ih =>
      by_cases hp : p.1 = d
      · simp [dictInsert, hp, List.lookup, hkd]
      · cases hk : (k == p.1) with
        | true => simp [dictInsert, hp, List.lookup, hk]
        | false => simp [dictInsert, hp, List.lookup, hk, ih]

theorem lookup_foldl_not_mem (f : String → JValue) (c : String) :
    ∀ (cs : List String) (acc : List (String × JValue)), c ∉ cs →
      (cs.foldl (fun a d => dictInsert a d (f d)) acc).lookup c =
        acc.lookup c := by
  intro cs
  induction cs with
  | nil => intro acc _; rfl
  | cons d cs ih =>
      intro acc hc
      have hd : d ≠ c := fun hh => hc (hh ▸ List.mem_cons_self d cs)
      have hcs : c ∉ cs := fun hh => hc (List.mem_cons_of_mem d hh)
      simpa [List.foldl_cons, lookup_dictInsert_ne d c (f d) hd] using
        ih (dictInsert acc d (f d)) hcs

/-- After folding one `dictInsert` per requested key into an accumulator,
the entry for a requested key is exactly that key's own item value. -/
theorem lookup_foldl_insert (f : String → JValue) (c : String) :
    ∀ (cs : List String) (acc : List (String × JValue)), c ∈ cs →
      (cs.foldl (fun a d => dictInsert a d (f d)) acc).lookup c =
        some (f c) := by
  intro cs
  induction cs with
  | nil => intro acc hc; exact absurd hc (List.not_mem_nil c)
  | cons d cs ih =>
      intro acc hc
      by_cases hm : c ∈ cs
      · exact ih (dictInsert acc d (f d)) hm
      · have hdc : d = c := by
          rcases List.mem_cons.mp hc with h | h
          · exact h.symm
          · exact absurd h hm
        subst hdc
        rw [List.foldl_cons, lookup_foldl_not_mem f d cs _ hm,
          lookup_dictInsert_self]

/-- C9 counterexample: `plot_hist` is a rendering operation, but a failure
while rendering its chart (the figure construction succeeded as part of the
render capability, `fig.show` raised) flips `ok` to false — the result is
`{ok: false, error: "plot_hist_failed:boom"}`; the claim that a rendering
failure never flips `ok` to false is wrong for the non-itemized rendering
operations. -/
theorem c9_counterexample :
    plot_hist envRfail "a" 30 st1 =
      (.ok (errObj "plot_hist_failed:boom"), st1) ∧
    (errObj "plot_hist_failed:boom").getKey "ok" = some (.bool false) :=
  ⟨rfl, rfl⟩

/-- C9 (amended): for the itemized operations (`top_categories` over a list
of columns, `scatter_pairs` over a list of pairs) a failure while rendering
a chart never flips `ok` to false: the overall result is `ok:true` for
every environment, and the failure is reported inline in the payload entry
for that specific sub-item only — the entry for a requested item depends
only on that item's own outcome.  (For the non-itemized rendering
operations `plot_hist` and `plot_xy`, a rendering failure does yield
`ok:false`, as the counterexample shows.) -/
theorem c9_itemized_render_inline (env : Env) (st : State) (df : DataFrame)
    (h : st.df = some df) :
    (∀ cs tn, top_categories env cs tn st =
      (.ok (.obj [("ok", .bool true), ("top_categories", .obj
        (cs.foldl (fun acc c => dictInsert acc c (topCatEntry env df tn c))
          []))]), st)) ∧
    (∀ (cs : List String) (tn : Int) (c : String), c ∈ cs →
      (cs.foldl (fun acc c => dictInsert acc c (topCatEntry env df tn c))
        []).lookup c = some (topCatEntry env df tn c)) ∧
    (∀ tn c col e, getColumn df c = some col →
      env.renderBar ((topCounts col tn).map (·.1))
        ((topCounts col tn).map (fun p => (p.2 : ℚ)))
        ("Top " ++ toString tn ++ ": " ++ c) = .error e →
      topCatEntry env df tn c = .str ("error:" ++ e.msg)) ∧
    (∀ ps, scatter_pairs env ps st =
      (.ok (.obj [("ok", .bool true),
        ("pairs_rendered", .arr (ps.map (scatterEntry env df)))]), st)) ∧
    (∀ x y e, env.renderScatter df x y = .error e →
      scatterEntry env df (x, y) =
        .str (x ++ "_vs_" ++ y ++ "_error:" ++ e.msg)) ∧
    (∀ x y u, env.renderScatter df x y = .ok u →
      scatterEntry env df (x, y) = .str (x ++ "_vs_" ++ y)) := by
  refine ⟨fun cs tn => ?_, fun cs tn c hc => ?_,
    fun tn c col e hcol hr => ?_, fun ps => ?_, fun x y e hr => ?_,
    fun x y u hr => ?_⟩
  · simp only [top_categories, h]
  · exact lookup_foldl_insert _ c cs [] hc
  · simp only [topCatEntry, getCol, hcol]
    simp only [hr]
  · simp only [scatter_pairs, h]
  · simp only [scatterEntry, hr]
  · simp only [scatterEntry, hr]

/-- Witness for C9 (amended): with every render failing, `scatter_pairs`
still returns `ok:true` and the pair's entry is the inline error string;
with renders succeeding, the entry is the plain pair tag; a requested
column's `top_categories` entry is its own item value. -/
theorem c9_itemized_render_inline_witness :
    scatter_pairs envRfail [("x", "y")] st1 =
      (.ok (.obj [("ok", .bool true),
        ("pairs_rendered",
          .arr ([("x", "y")].map (scatterEntry envRfail df1)))]), st1) ∧
    scatterEntry envRfail df1 ("x", "y") = .str "x_vs_y_error:boom" ∧
    scatterEntry env0 df1 ("x", "y") = .str "x_vs_y" ∧
    (["a"].foldl
      (fun acc c => dictInsert acc c (topCatEntry envRfail df1 10 c))
      []).lookup "a" = some (topCatEntry envRfail df1 10 "a") := by
  refine ⟨(c9_itemized_render_inline envRfail st1 df1 rfl).2.2.2.1 [("x", "y")],
    ?_, ?_, (c9_itemized_render_inline envRfail st1 df1 rfl).2.1 ["a"] 10 "a"
      (by decide)⟩
  · exact (c9_itemized_render_inline envRfail st1 df1 rfl).2.2.2.2.1 "x" "y"
      ⟨"ValueError", "boom"⟩ rfl
  · exact (c9_itemized_render_inline env0 st1 df1 rfl).2.2.2.2.2 "x" "y"
      () rfl

/-! ## Claim C6 -/

theorem numsOf_const (v : ℚ) :
    ∀ vs : List Cell, (∀ x ∈ vs, x = Cell.num v) →
      numsOf vs = List.replicate vs.length v := by
  intro vs
  induction vs with
  | nil => intro _; rfl
  | cons x vs ih =>
      intro h
      have hx : x = Cell.num v := h x (List.mem_cons_self x vs)
      subst hx
      simp only [numsOf, List.filterMap_cons, List.length_cons,
        List.replicate_succ]
      exact congrArg (v :: ·) (ih fun y hy => h y (List.mem_cons_of_mem _ hy))

theorem meanQ_replicate (n : ℕ) (v : ℚ) (hn : n ≠ 0) :
    meanQ (List.replicate n v) = some v := by
  unfold meanQ
  rw [List.length_replicate, if_neg hn, List.sum_replicate, nsmul_eq_mul]
  congr 1
  field_simp

theorem varQ_replicate (n : ℕ) (v : ℚ) (hn : n ≠ 0) :
    varQ (List.replicate n v) = some 0 := by
  unfold varQ
  rw [meanQ_replicate n v hn]
  dsimp only
  rw [List.map_replicate]
  simp

/-- Every cell of a constant nonempty numeric column has z-score zero, so
no threshold `z > 0` is exceeded. -/
theorem zAbove_const (env : Env) (col : Column) (i : ℕ) (z v : ℚ)
    (hz : 0 < z) (hv : ∀ x ∈ col.values, x = Cell.num v) :
    zAbove env col i z = false := by
  unfold zAbove
  by_cases hnil : col.values = []
  · have hna : col.values.getD i .na = .na := by rw [hnil]; rfl
    rw [hna]
    rfl
  · have hlen : col.values.length ≠ 0 := fun hh =>
      hnil (List.length_eq_zero.mp hh)
    have hnums : numsOf col.values = List.replicate col.values.length v :=
      numsOf_const v col.values hv
    cases hc : col.values.getD i .na with
    | num q =>
        have hmem : Cell.num q ∈ col.values := by
          by_cases hi : i < col.values.length
          · rw [← hc, List.getD_eq_getElem col.values .na hi]
            exact List.getElem_mem hi
          · rw [List.getD_eq_default col.values .na (le_of_not_lt hi)] at hc
            exact absurd hc (by simp)
        have hq : q = v := Cell.num.inj (hv _ hmem)
        subst hq
        unfold zscoreCell colStd
        rw [hnums, meanQ_replicate _ _ hlen, varQ_replicate _ _ hlen]
        simp only [Option.map_some']
        rw [sub_self, zero_div, abs_zero]
        exact decide_eq_false (lt_asymm hz)
    | na => unfold zscoreCell; rfl
    | str s => unfold zscoreCell; rfl
    | date t => unfold zscoreCell; rfl

/-- C6: on a loaded dataset, `outliers` over columns whose values are all
equal (zero variance) returns `ok:true` with `count:0` and an empty index
list for every positive threshold `z` — and the `+ 1e-9` floor keeps every
column's z-score denominator strictly positive, so the operation cannot
fail by division. -/
theorem c6_outliers_constant (env : Env) (st : State) (df : DataFrame)
    (cs : List String) (z : ℚ) (hdf : st.df = some df) (hz : 0 < z)
    (hsq : ∀ q, 0 ≤ q → 0 ≤ env.sqrtQ q)
    (hconst : ∀ c ∈ cs, ∃ col v, getColumn df c = some col ∧
      col.dtype.isNumeric = true ∧ col.values ≠ [] ∧
      ∀ x ∈ col.values, x = Cell.num v) :
    outliers env cs z st =
      (.ok (.obj [("ok", .bool true), ("count", .num 0),
                  ("indices", .arr [])]), st) ∧
    ∀ c ∈ cs, ∀ col v, getColumn df c = some col →
      (∀ x ∈ col.values, x = Cell.num v) → col.values ≠ [] →
      ∃ σ, colStd env col = some σ ∧ 0 < σ + 1 / 1000000000 := by
  constructor
  · have hmiss : cs.filter (fun c => (getColumn df c).isNone) = [] := by
      rw [List.filter_eq_nil_iff]
      intro c hc
      rcases hconst c hc with ⟨col, v, hcol, _, _, _⟩
      rw [hcol]
      simp
    have hsel : selectCols df cs = .ok ⟨df.nrows, cs.filterMap (getColumn df)⟩ := by
      unfold selectCols
      simp only [hmiss]
      rfl
    have hidx : (List.range df.nrows).filter
        (rowMask env (selectNumeric ⟨df.nrows, cs.filterMap (getColumn df)⟩) z)
        = [] := by
      rw [List.filter_eq_nil_iff]
      intro i _
      unfold rowMask
      rw [Bool.not_eq_true, List.any_eq_false]
      intro col hcolmem
      simp only [selectNumeric] at hcolmem
      rw [List.mem_filter] at hcolmem
      rcases List.mem_filterMap.mp hcolmem.1 with ⟨c, hc, hlookup⟩
      rcases hconst c hc with ⟨col', v, hcol', _, _, hv⟩
      rw [hcol'] at hlookup
      cases Option.some.inj hlookup
      simp [zAbove_const env col i z v hz hv]
    simp only [outliers, hdf, hsel, hidx]
    simp
  · intro c _ col v _ hv hne
    have hlen : col.values.length ≠ 0 := fun hh =>
      hne (List.length_eq_zero.mp hh)
    refine ⟨env.sqrtQ 0, ?_, ?_⟩
    · unfold colStd
      rw [numsOf_const v col.values hv, varQ_replicate _ _ hlen]
      rfl
    · have h0 : (0 : ℚ) ≤ env.sqrtQ 0 := hsq 0 le_rfl
      have hpos : (0 : ℚ) < 1 / 1000000000 := by norm_num
      linarith

/-- Witness for C6: the constant column `a` of `df1` yields zero outliers
at `z = 3`, with a positive z-score denominator. -/
theorem c6_outliers_constant_witness :
    outliers env0 ["a"] 3 st1 =
      (.ok (.obj [("ok", .bool true), ("count", .num 0),
                  ("indices", .arr [])]), st1) ∧
    ∃ σ, colStd env0 colA = some σ ∧ 0 < σ + 1 / 1000000000 := by
  have hconst : ∀ c ∈ ["a"], ∃ col v, getColumn df1 c = some col ∧
      col.dtype.isNumeric = true ∧ col.values ≠ [] ∧
      ∀ x ∈ col.values, x = Cell.num v := by
    intro c hc
    rw [List.mem_singleton] at hc
    subst hc
    exact ⟨colA, 5, rfl, rfl, by decide, by decide⟩
  have h := c6_outliers_constant env0 st1 df1 ["a"] 3 rfl (by norm_num)
    (fun q hq => hq) hconst
  exact ⟨h.1, h.2 "a" (by decide) colA 5 rfl (by decide) (by decide)⟩

/-! ## Claim C7 -/

/-- The keys of `value_counts().sort_index()` are in ascending order. -/
theorem valueCountsSorted_keys_sorted (l : List Int) :
    List.Sorted (· ≤ ·) ((valueCountsSorted l).map Prod.fst) := by
  unfold valueCountsSorted
  rw [List.map_map]
  have hcomp : (Prod.fst ∘ fun k => (k, l.count k)) = id := rfl
  rw [hcomp, List.map_id]
  exact List.sorted_insertionSort _ _

theorem mapExcept_pointwise_ok (f : Int → Except PyError Int) (g : Int → Int)
    (hf : ∀ t, f t = .ok (g t)) :
    ∀ l : List Int, mapExcept f l = .ok (l.map g) := by
  intro l
  induction l with
  | nil => rfl
  | cons x xs ih => simp [mapExcept, hf, ih]

/-- C7: with a dataset loaded (and the period conversion and line
rendering succeeding), `time_trend` on a datetime-typed column and on an
integer-year column both return a result of the identical shape
`mkTrend type trend` = `{ok: true, type, trend}` where the trend mapping's
keys are in ascending sorted order; the two results differ only in the
`type` field (`"datetime"` versus `"year-int"`). -/
theorem c7_time_trend_shapes (env : Env) (st : State) (df : DataFrame)
    (cd cy f : String) (colD colY : Column) (g : Int → Int)
    (hdf : st.df = some df)
    (hcd : getColumn df cd = some colD) (hdtd : colD.dtype = .datetime64)
    (hcy : getColumn df cy = some colY) (hdty : colY.dtype ≠ .datetime64)
    (hper : ∀ t, env.toPeriod f t = .ok (g t))
    (hrender : ∀ ks vs ti, env.renderLine ks vs ti = .ok ()) :
    time_trend env cd f st =
      (.ok (mkTrend "datetime"
        (valueCountsSorted ((dateVals colD).map g))), st) ∧
    time_trend env cy f st =
      (.ok (mkTrend "year-int" (valueCountsSorted (intVals colY))), st) ∧
    List.Sorted (· ≤ ·)
      ((valueCountsSorted ((dateVals colD).map g)).map Prod.fst) ∧
    List.Sorted (· ≤ ·)
      ((valueCountsSorted (intVals colY)).map Prod.fst) := by
  refine ⟨?_, ?_, valueCountsSorted_keys_sorted _,
    valueCountsSorted_keys_sorted _⟩
  · have hm : mapExcept (env.toPeriod f) (dateVals colD) =
        .ok ((dateVals colD).map g) :=
      mapExcept_pointwise_ok (env.toPeriod f) g hper (dateVals colD)
    simp only [time_trend, hdf, getCol, hcd]
    rw [if_pos hdtd]
    simp only [hm, hrender]
  · simp only [time_trend, hdf, getCol, hcy]
    rw [if_neg hdty]
    simp only [hrender]

/-- Witness for C7 on `df2`: the datetime column `d` and the year column
`y` produce same-shaped, key-sorted trends differing only in `type`. -/
theorem c7_time_trend_shapes_witness :
    time_trend env0 "d" "M" st2 =
      (.ok (mkTrend "datetime"
        (valueCountsSorted ((dateVals colD0).map (fun t => t)))), st2) ∧
    time_trend env0 "y" "M" st2 =
      (.ok (mkTrend "year-int" (valueCountsSorted (intVals colY0))), st2) ∧
    List.Sorted (· ≤ ·)
      ((valueCountsSorted ((dateVals colD0).map (fun t => t))).map
        Prod.fst) ∧
    List.Sorted (· ≤ ·)
      ((valueCountsSorted (intVals colY0)).map Prod.fst) := by
  exact c7_time_trend_shapes env0 st2 df2 "d" "y" "M" colD0 colY0
    (fun t => t) rfl rfl rfl rfl (by decide) (fun t => rfl)
    (fun ks vs ti => rfl)

end Analyst
